import Mathlib

/-!
# Verification of the runtime-enforcer BPF data plane

Shallow embedding of `src/bpf/main.c`, `src/bpf/string_maps.h` and
`src/bpf/d_path_resolution.h` (a cgroup-scoped process-execution allowlist
enforcer), together with theorems settling the specification claims.

Modelling conventions:
* machine integers are `Nat` (unsigned) or `Int` (C `int`), with explicit
  `% 2^w` where a C conversion truncates;
* BPF hash maps are total functions `Nat → Option Nat`;
* kernel-side effects that the hooks observe (map lookups, the path
  resolver's return value, probe-read success) are fields of an explicit
  environment structure, so each hook is a pure function of its environment;
* `LINUX_KERNEL_VERSION < KERNEL_VERSION(5,11,0)` is the boolean parameter
  `lt511` (the load-time constant controlling large-key support).
-/

/-! ## Constants from `string_maps.h` and `d_path_resolution.h` -/

def MAX_PATH_LEN : Nat := 4096

def STRING_MAPS_KEY_INC_SIZE : Nat := 24

def STRING_MAPS_SIZE_0 : Nat := 1 * STRING_MAPS_KEY_INC_SIZE

def STRING_MAPS_SIZE_1 : Nat := 2 * STRING_MAPS_KEY_INC_SIZE

def STRING_MAPS_SIZE_2 : Nat := 3 * STRING_MAPS_KEY_INC_SIZE

def STRING_MAPS_SIZE_3 : Nat := 4 * STRING_MAPS_KEY_INC_SIZE

def STRING_MAPS_SIZE_4 : Nat := 5 * STRING_MAPS_KEY_INC_SIZE

def STRING_MAPS_SIZE_5 : Nat := 6 * STRING_MAPS_KEY_INC_SIZE

def STRING_MAPS_SIZE_6 : Nat := 256

def STRING_MAPS_SIZE_7 : Nat := 512

def STRING_MAPS_SIZE_8 : Nat := 1024

def STRING_MAPS_SIZE_9 : Nat := 2048

def STRING_MAPS_SIZE_10 : Nat := 4096

def POLICY_MODE_MONITOR : Nat := 1

def POLICY_MODE_PROTECT : Nat := 2

/-- The macro `EPERM` is defined as 1 in `main.c` (matching the errno value); used as the
C `int` expression `-EPERM`, so typed as `Int`. -/
def EPERM : Int := 1

/-! ## Length-bucketed string matcher (`main.c:417-464`, `string_maps.h`) -/

/-- Embedding of `string_padded_len` (`main.c:417-441`).  `len` is the `u16`
path length; `lt511` is true when `LINUX_KERNEL_VERSION < 5.11`. -/
def string_padded_len (lt511 : Bool) (len : Nat) : Nat :=
  if len < STRING_MAPS_SIZE_5 then
    (if len % STRING_MAPS_KEY_INC_SIZE ≠ 0 then
      (len / STRING_MAPS_KEY_INC_SIZE + 1) * STRING_MAPS_KEY_INC_SIZE
     else len)
  else if len ≤ STRING_MAPS_SIZE_6 then STRING_MAPS_SIZE_6
  else if lt511 then STRING_MAPS_SIZE_7
  else if len ≤ STRING_MAPS_SIZE_7 then STRING_MAPS_SIZE_7
  else if len ≤ STRING_MAPS_SIZE_8 then STRING_MAPS_SIZE_8
  else if len ≤ STRING_MAPS_SIZE_9 then STRING_MAPS_SIZE_9
  else STRING_MAPS_SIZE_10

/-- Embedding of `string_map_index` (`main.c:443-464`).  The C function
returns `int`; `(padded_len / 24) - 1` can be `-1` for `padded_len < 24`,
so the result is `Int`. -/
def string_map_index (lt511 : Bool) (padded_len : Nat) : Int :=
  if padded_len < STRING_MAPS_SIZE_5 then
    (padded_len / STRING_MAPS_KEY_INC_SIZE : Int) - 1
  else if lt511 then
    (if padded_len = STRING_MAPS_SIZE_6 then 6 else 7)
  else if padded_len = STRING_MAPS_SIZE_6 then 6
  else if padded_len = STRING_MAPS_SIZE_7 then 7
  else if padded_len = STRING_MAPS_SIZE_8 then 8
  else if padded_len = STRING_MAPS_SIZE_9 then 9
  else 10

/-- Embedding of `get_policy_string_map` (`string_maps.h:80-106`): a closed
switch over indices 0..10; any other index yields the null map.
`present pid i` abstracts "the outer map `pol_str_maps_i` has an inner map
for policy `pid`"; the result is whether a non-null map pointer is
obtained. -/
def get_policy_string_map (present : Nat → Int → Bool) (pid : Nat) (index : Int) : Bool :=
  if 0 ≤ index ∧ index ≤ 10 then present pid index else false


/-! ## Cgroup tracker map (`main.c:22-35`, `main.c:273-302`) -/

/-- A BPF hash map with `u64` keys and values, as a total function. -/
def TrackerMap : Type := Nat → Option Nat

/-- Embedding of `cgrp_get_tracker_id` (`main.c:31-35`): returns the map
value when present and `0` on a miss (`ret ? *ret : 0`). -/
def cgrp_get_tracker_id (m : TrackerMap) (cgid : Nat) : Nat :=
  (m cgid).getD 0

/-- Embedding of `get_tracker_id_from_curr_task` (`main.c:227-237`):
returns 0 when the cgroup id is unavailable; otherwise the tracker value
when the lookup hits with a nonzero value, else the cgroup id itself. -/
def get_tracker_id_from_curr_task (m : TrackerMap) (cgroupid : Nat) : Nat :=
  if cgroupid = 0 then 0
  else
    let trackerid := cgrp_get_tracker_id m cgroupid
    if trackerid ≠ 0 then trackerid else cgroupid

/-- Embedding of `tg_cgtracker_cgroup_mkdir` (`main.c:273-292`).  `cgid` and
`cgid_parent` abstract `get_cgroup_id(cgrp)` and `cgroup_get_parent_id(cgrp)`;
a value 0 models a failed id retrieval and makes the handler a no-op.  When
the parent is tracked, the child is mapped to the parent's tracker value
(`BPF_ANY` update). -/
def tg_cgtracker_cgroup_mkdir (m : TrackerMap) (cgid cgid_parent : Nat) : TrackerMap :=
  if cgid = 0 then m
  else if cgid_parent = 0 then m
  else
    match m cgid_parent with
    | some tracker => fun k => if k = cgid then some tracker else m k
    | none => m

/-- Embedding of `tg_cgtracker_cgroup_release` (`main.c:294-302`): deletes
the entry for a nonzero cgroup id. -/
def tg_cgtracker_cgroup_release (m : TrackerMap) (cgid : Nat) : TrackerMap :=
  if cgid = 0 then m
  else fun k => if k = cgid then none else m k

/-- A kernel cgroup notification processed by the tracker programs. -/
inductive CgEvent where
  | mk_dir (cgid cgid_parent : Nat)
  | rel (cgid : Nat)
deriving DecidableEq

/-- Dispatch one notification to its handler. -/
def applyCgEvent (m : TrackerMap) : CgEvent → TrackerMap
  | CgEvent.mk_dir c p => tg_cgtracker_cgroup_mkdir m c p
  | CgEvent.rel c => tg_cgtracker_cgroup_release m c

/-- Process a stream of notifications in order. -/
def applyCgEvents (m : TrackerMap) (evs : List CgEvent) : TrackerMap :=
  evs.foldl applyCgEvent m


/-! ## The two hooks (`main.c:345-389`, `main.c:466-584`)

Each hook is embedded as a pure function of an environment that carries the
kernel-side observations the C code makes: map contents, scratch
availability, the `bprm->file` null test, the path resolver's return value,
the inner-map lookup outcome, and `bpf_probe_read_kernel` success.  The
ring-buffer publication is returned as an `Option Event` (the record handed
to `bpf_ringbuf_output`, with the length argument in `record_len`);
`bpf_printk` calls are pure logging and are not modelled. -/

/-- Macro `SAFE_PATH_LEN(x) = (x) & (MAX_PATH_LEN - 1)` (`d_path_resolution.h:15`)
applied to the `u16` path length. -/
def SAFE_PATH_LEN (n : Nat) : Nat := n % MAX_PATH_LEN

/-- C conversion of an `int` expression to `u16`. -/
def u16_of_int (x : Int) : Nat := (x % 65536).toNat

/-- Assignment `evt->path_len = MAX_PATH_LEN * 2 - current_offset` (`main.c:370/510`),
a `u16` field assigned from an `int` expression. -/
def gate_path_len (off : Int) : Nat := u16_of_int (2 * (MAX_PATH_LEN : Int) - off)

/-- A record handed to `bpf_ringbuf_output`: the `process_evt` header
fields (`main.c:321-333`) plus the length argument that was passed
(`19 + SAFE_PATH_LEN(path_len)`). -/
structure Event where
  cgid : Nat
  cg_tracker_id : Nat
  path_len : Nat
  mode : Nat
  record_len : Nat
deriving DecidableEq

/-- Environment of one `enforce_cgroup_policy` invocation. -/
structure GateEnv where
  /-- Test `LINUX_KERNEL_VERSION < KERNEL_VERSION(5, 11, 0)` -/
  lt511 : Bool
  /-- contents of `cgtracker_map` -/
  trackerMap : TrackerMap
  /-- result of `tg_get_current_cgroup_id()` (0 on failure) -/
  cgid : Nat
  /-- contents of `cg_to_policy_map` -/
  policyMap : Nat → Option Nat
  /-- The `process_evt_storage_map` lookup succeeded -/
  scratchOk : Bool
  /-- Test `bprm->file != NULL` -/
  filePresent : Bool
  /-- return value of `bpf_d_path_approx` -/
  resolveOff : Int
  /-- Outcome of `get_policy_string_map`: `pol_str_maps_i` holds a map
  for the policy id -/
  stringMapPresent : Nat → Int → Bool
  /-- the allowlist lookup on the padded path hits -/
  allowMatch : Bool
  /-- the `bpf_probe_read_kernel` copy to the front succeeds -/
  copyOk : Bool
  /-- contents of `policy_mode_map` -/
  modeMap : Nat → Option Nat

/-- Result of one `enforce_cgroup_policy` invocation: the hook's return
value, and the record given to `bpf_ringbuf_output` on `ringbuf_monitoring`
(if reached; the C code publishes before testing the mode, and ignores the
output's error code apart from logging). -/
structure GateOut where
  ret : Int
  published : Option Event
deriving DecidableEq

/-- Embedding of `enforce_cgroup_policy` (`main.c:466-584`). -/
def enforce_cgroup_policy (e : GateEnv) : GateOut :=
  if get_tracker_id_from_curr_task e.trackerMap e.cgid = 0 then ⟨0, none⟩
  else
    match e.policyMap (get_tracker_id_from_curr_task e.trackerMap e.cgid) with
    | none => ⟨0, none⟩
    | some policy_id =>
      if e.scratchOk = false then ⟨0, none⟩
      else if e.filePresent = false then ⟨0, none⟩
      else if e.resolveOff ≤ 0 then ⟨0, none⟩
      else
        let path_len := gate_path_len e.resolveOff
        if e.lt511 = true ∧ STRING_MAPS_SIZE_7 < path_len then ⟨0, none⟩
        else
          let padded_len := string_padded_len e.lt511 path_len
          if padded_len = 0 then ⟨0, none⟩
          else if get_policy_string_map e.stringMapPresent policy_id
              (string_map_index e.lt511 padded_len) = false then ⟨0, none⟩
          else if e.allowMatch = true then ⟨0, none⟩
          else if e.copyOk = false then ⟨0, none⟩
          else
            match e.modeMap policy_id with
            | none => ⟨0, none⟩
            | some mode =>
              let evt : Event := ⟨e.cgid, cgrp_get_tracker_id e.trackerMap e.cgid,
                                  path_len, mode, 19 + SAFE_PATH_LEN path_len⟩
              if mode = POLICY_MODE_MONITOR then ⟨0, some evt⟩
              else ⟨-EPERM, some evt⟩

/-- Environment of one `execve_send` invocation. -/
structure ExecveEnv where
  /-- contents of `cgtracker_map` -/
  trackerMap : TrackerMap
  /-- result of `tg_get_current_cgroup_id()` -/
  cgid : Nat
  /-- The `process_evt_storage_map` lookup succeeded -/
  scratchOk : Bool
  /-- Test `bprm->file != NULL` -/
  filePresent : Bool
  /-- return value of `bpf_d_path_approx` -/
  resolveOff : Int
  /-- the `bpf_probe_read_kernel` copy to the front succeeds -/
  copyOk : Bool

/-- Embedding of `execve_send` (`main.c:345-389`): the record put on
`ringbuf_execve`, or `none` when the event is dropped. -/
def execve_send (e : ExecveEnv) : Option Event :=
  if e.scratchOk = false then none
  else if e.filePresent = false then none
  else if e.resolveOff ≤ 0 then none
  else
    let path_len := gate_path_len e.resolveOff
    if e.copyOk = false then none
    else some ⟨e.cgid, cgrp_get_tracker_id e.trackerMap e.cgid, path_len, 0,
               19 + SAFE_PATH_LEN path_len⟩

/-- The exact condition under which `enforce_cgroup_policy` denies: all the
conditions of claim C5 plus, forced by the code, a nonzero padded length
and a non-null per-policy string map for the computed bucket. -/
def deny_condition (e : GateEnv) : Prop :=
  get_tracker_id_from_curr_task e.trackerMap e.cgid ≠ 0 ∧
  ∃ policy_id,
    e.policyMap (get_tracker_id_from_curr_task e.trackerMap e.cgid) = some policy_id ∧
    e.scratchOk = true ∧
    e.filePresent = true ∧
    0 < e.resolveOff ∧
    (e.lt511 = true → gate_path_len e.resolveOff ≤ STRING_MAPS_SIZE_7) ∧
    string_padded_len e.lt511 (gate_path_len e.resolveOff) ≠ 0 ∧
    get_policy_string_map e.stringMapPresent policy_id
      (string_map_index e.lt511 (string_padded_len e.lt511 (gate_path_len e.resolveOff))) = true ∧
    e.allowMatch = false ∧
    e.copyOk = true ∧
    ∃ mode, e.modeMap policy_id = some mode ∧ mode ≠ POLICY_MODE_MONITOR

/-! ## Path resolver (`d_path_resolution.h`) -/

def MAX_COMPONENT_LEN : Nat := 256

/-- Macro `SAFE_PATH_ACCESS(x) = (x) & (MAX_PATH_LEN * 2 - 1)` applied to a C
`int`: the low 13 bits of the two's-complement value, i.e. the
mathematical `x mod 8192`. -/
def SAFE_PATH_ACCESS (x : Int) : Nat := (x % (2 * (MAX_PATH_LEN : Int))).toNat

/-- Macro `SAFE_COMPONENT_ACCESS(x) = (x) & (MAX_COMPONENT_LEN - 1)` on the
`u32` name length. -/
def SAFE_COMPONENT_ACCESS (n : Nat) : Nat := n % MAX_COMPONENT_LEN

/-- The scratch region (`evt->path`, 4 × `MAX_PATH_LEN` bytes) as a byte
function. -/
def Buf : Type := Nat → Nat

/-- Store one byte. -/
def writeByte (buf : Buf) (p : Nat) (v : Nat) : Buf :=
  fun i => if i = p then v else buf i

/-- Store bytes contiguously from position `p` (a `memcpy` /
`bpf_probe_read_kernel` destination). -/
def writeBytes (buf : Buf) (p : Nat) : List Nat → Buf
  | [] => buf
  | v :: vs => writeBytes (writeByte buf p v) (p + 1) vs

/-- Read `n` bytes starting at `p`. -/
def readSlice (buf : Buf) : Nat → Nat → List Nat
  | _, 0 => []
  | p, n + 1 => buf p :: readSlice buf (p + 1) n

/-- The literal `" (deleted)"` without its terminating NUL (`sizeof - 1`
= 10 bytes). -/
def DELETED_STRING : List Nat := [32, 40, 100, 101, 108, 101, 116, 101, 100, 41]

/-- Embedding of `copy_name` (`d_path_resolution.h:54-65`): decrement the
cursor by `d_name.len + 1` (C `int` arithmetic), write `'/'` (47) at the
masked cursor, then copy `SAFE_COMPONENT_ACCESS(d_name.len)` name bytes
contiguously starting at the masked cursor + 1. -/
def copy_name (buf : Buf) (buflen : Int) (name : List Nat) : Buf × Int :=
  let newlen := buflen - ((name.length : Int) + 1)
  let buf1 := writeByte buf (SAFE_PATH_ACCESS newlen) 47
  let buf2 := writeBytes buf1 (SAFE_PATH_ACCESS (newlen + 1))
    (name.take (SAFE_COMPONENT_ACCESS name.length))
  (buf2, newlen)

/-- Abstraction of one `bpf_d_path_approx` walk (`d_path_resolution.h`):
`components` are the dentry names `path_read` copies, leaf first (mount
crossings write nothing and are elided); `deleted` is the leaf
`d_unlinked` test; `leafName` is the dentry name used by the pathless-file
last resort; `resolved` is the walk's `data.resolved` flag (root anchor
reached within the iteration cap). -/
structure ResolveInput where
  components : List (List Nat)
  leafName : List Nat
  deleted : Bool
  resolved : Bool

/-- The successive `copy_name` calls performed by the walk loop. -/
def run_components (st : Buf × Int) : List (List Nat) → Buf × Int
  | [] => st
  | c :: cs => run_components (copy_name st.1 st.2 c) cs

/-- Embedding of `bpf_d_path_approx` (`d_path_resolution.h:124-200`):
start the cursor at `2 * MAX_PATH_LEN`; prepend `" (deleted)"` when the
leaf is unlinked; run the walk; if the cursor never moved, copy the leaf
name as a last resort; return the cursor when resolved, `-1` otherwise
(second component: the final buffer). -/
def bpf_d_path_approx (inp : ResolveInput) (buf : Buf) : Int × Buf :=
  let st0 : Buf × Int :=
    if inp.deleted then
      (writeBytes buf (SAFE_PATH_ACCESS (2 * (MAX_PATH_LEN : Int) - 10)) DELETED_STRING,
       2 * (MAX_PATH_LEN : Int) - 10)
    else (buf, 2 * (MAX_PATH_LEN : Int))
  let st1 := run_components st0 inp.components
  let st2 := if st1.2 = 2 * (MAX_PATH_LEN : Int) then copy_name st1.1 st1.2 inp.leafName else st1
  if inp.resolved then (st2.2, st2.1) else (-1, st2.1)

/-- Bytes the walk decrements the cursor by: `Σ (|name| + 1)`. -/
def totalLen : List (List Nat) → Nat
  | [] => 0
  | c :: cs => (c.length + 1) + totalLen cs

/-- The pathname the walk deposits right-aligned at `2 * MAX_PATH_LEN`:
`'/'`-prefixed components from root to leaf, then the `" (deleted)"`
suffix when the leaf was unlinked; for a pathless file the fallback is the
single `'/'`-prefixed leaf name. -/
def expectedPath (inp : ResolveInput) : List Nat :=
  if inp.components = [] ∧ inp.deleted = false then 47 :: inp.leafName
  else
    (inp.components.reverse.map (fun c => 47 :: c)).flatten ++
      (if inp.deleted then DELETED_STRING else [])

/-- A resolvable walk over a path whose components total 36 × 256 = 9216
bytes, exceeding the reconstruction budget of `2 * MAX_PATH_LEN`. -/
def inpBad : ResolveInput :=
  ⟨List.replicate 36 (List.replicate 255 97), [], false, true⟩

/-- A resolvable one-component walk (`/cat`). -/
def inpGood : ResolveInput :=
  ⟨[[99, 97, 116]], [], false, true⟩

/-! ## Concrete environments used by witnesses and counterexamples -/

/-- A gate environment that reaches the mode test (tracker id 7, policy 3
bound, resolver offset 8179 hence path length 13), with the policy mode set
to `m`. -/
def gateEnvW (m : Nat) : GateEnv :=
  ⟨false, fun _ => none, 7, fun k => if k = 7 then some 3 else none,
   true, true, 8179, fun _ _ => true, false, true,
   fun k => if k = 3 then some m else none⟩

/-- A gate environment satisfying all of claim C5's nine conditions but
whose policy has no string map loaded for the computed bucket. -/
def envC5 : GateEnv :=
  ⟨false, fun _ => none, 7, fun k => if k = 7 then some 3 else none,
   true, true, 8179, fun _ _ => false, false, true,
   fun k => if k = 3 then some 2 else none⟩

/-- A gate environment that reaches the mode lookup with an empty policy
mode map. -/
def envC3 : GateEnv :=
  ⟨false, fun _ => none, 7, fun k => if k = 7 then some 9 else none,
   true, true, 8179, fun _ _ => true, false, true, fun _ => none⟩

/-- An execve environment whose cgroup is tracked (5 ↦ 2). -/
def envW1 : ExecveEnv :=
  ⟨fun k => if k = 5 then some 2 else none, 5, true, true, 8179, true⟩

/-- An execve environment whose cgroup id 5 is absent from the tracker
map. -/
def envC4 : ExecveEnv :=
  ⟨fun _ => none, 5, true, true, 8179, true⟩

/-- An execve environment whose resolved path length is exactly
`MAX_PATH_LEN` (resolver offset 4096). -/
def envC6 : ExecveEnv :=
  ⟨fun _ => none, 5, true, true, 4096, true⟩

/-! ## Theorems settling the claims -/

/-- A Boolean that is not `false` is `true`. -/
lemma bool_ne_false {b : Bool} (h : ¬b = false) : b = true := by
  cases b <;> simp_all

/-- A Boolean that is not `true` is `false`. -/
lemma bool_ne_true {b : Bool} (h : ¬b = true) : b = false := by
  cases b <;> simp_all

/-- C5 (amended): the hook returns only 0 or `-EPERM`, and returns `-EPERM`
exactly when the claim's conditions hold together with the two conditions
the code adds: the padded length is nonzero and the policy's string map for
the computed bucket index exists. -/
theorem enforcer_C5_amended (e : GateEnv) :
    ((enforce_cgroup_policy e).ret = 0 ∨ (enforce_cgroup_policy e).ret = -EPERM) ∧
    ((enforce_cgroup_policy e).ret = -EPERM ↔ deny_condition e) := by
  unfold enforce_cgroup_policy deny_condition
  by_cases htid : get_tracker_id_from_curr_task e.trackerMap e.cgid = 0
  · rw [if_pos htid]
    simp [htid, EPERM]
  rw [if_neg htid]
  split
  · rename_i hpol
    simp [hpol, EPERM]
  rename_i pid hpol
  by_cases hscr : e.scratchOk = false
  · rw [if_pos hscr]
    simp [hpol, hscr, EPERM]
  rw [if_neg hscr]
  by_cases hfile : e.filePresent = false
  · rw [if_pos hfile]
    simp [hpol, hfile, EPERM]
  rw [if_neg hfile]
  by_cases hoff : e.resolveOff ≤ 0
  · rw [if_pos hoff]
    refine ⟨Or.inl rfl, fun h => absurd h (by decide), fun hd => ?_⟩
    obtain ⟨-, pid', -, -, -, hoff', -⟩ := hd
    exact absurd hoff' (by omega)
  rw [if_neg hoff]
  by_cases hcap : e.lt511 = true ∧ STRING_MAPS_SIZE_7 < gate_path_len e.resolveOff
  · rw [if_pos hcap]
    refine ⟨Or.inl rfl, fun h => absurd h (by decide), fun hd => ?_⟩
    obtain ⟨-, pid', -, -, -, -, hcap', -⟩ := hd
    exact absurd (hcap' hcap.1) (by omega)
  rw [if_neg hcap]
  by_cases hpad : string_padded_len e.lt511 (gate_path_len e.resolveOff) = 0
  · rw [if_pos hpad]
    simp [hpol, hpad, EPERM]
  rw [if_neg hpad]
  by_cases hsm : get_policy_string_map e.stringMapPresent pid
      (string_map_index e.lt511 (string_padded_len e.lt511 (gate_path_len e.resolveOff))) = false
  · rw [if_pos hsm]
    simp [hpol, hsm, EPERM]
  rw [if_neg hsm]
  by_cases hmatch : e.allowMatch = true
  · rw [if_pos hmatch]
    simp [hpol, hmatch, EPERM]
  rw [if_neg hmatch]
  by_cases hcopy : e.copyOk = false
  · rw [if_pos hcopy]
    simp [hpol, hcopy, EPERM]
  rw [if_neg hcopy]
  split
  · rename_i hmode
    simp [hpol, hmode, EPERM]
  rename_i m hmode
  by_cases hmon : m = POLICY_MODE_MONITOR
  · rw [if_pos hmon]
    subst hmon
    simp [hpol, hmode, EPERM, POLICY_MODE_MONITOR]
  rw [if_neg hmon]
  refine ⟨Or.inr rfl, fun _ => ?_, fun _ => rfl⟩
  exact ⟨htid, pid, hpol, bool_ne_false hscr, bool_ne_false hfile, by omega,
    fun hlt => le_of_not_lt fun hx => hcap ⟨hlt, hx⟩, hpad, bool_ne_false hsm,
    bool_ne_true hmatch, bool_ne_false hcopy, m, hmode, hmon⟩

/-- C1: for a resolved length strictly between 120 and 144 the padder does
return 144, but `string_map_index` then yields 10 on kernels ≥ 5.11 and 7 on
older kernels — never the bucket 5 that the spec's formula
`(L_padded / 24) − 1` gives.  The guard `padded_len < STRING_MAPS_SIZE_5`
in `string_map_index` excludes the padded value 144 itself, so the
144-wide map `pol_str_maps_5` is unreachable. -/
theorem enforcer_C1_bug (lt511 : Bool) (L : Nat) (h1 : 120 < L) (h2 : L < 144) :
    string_padded_len lt511 L = 144 ∧
    string_map_index lt511 (string_padded_len lt511 L) = (if lt511 then 7 else 10) ∧
    string_map_index lt511 (string_padded_len lt511 L) ≠ 5 := by
  have hpad : string_padded_len lt511 L = 144 := by
    unfold string_padded_len STRING_MAPS_SIZE_5 STRING_MAPS_SIZE_6 STRING_MAPS_SIZE_7
      STRING_MAPS_SIZE_8 STRING_MAPS_SIZE_9 STRING_MAPS_SIZE_10 STRING_MAPS_KEY_INC_SIZE
    split_ifs <;> omega
  refine ⟨hpad, ?_, ?_⟩ <;> rw [hpad] <;> cases lt511 <;> decide

/-- C1 witness: concrete length 130. -/
theorem enforcer_C1_bug_witness :
    (120 < 130 ∧ 130 < 144) ∧
    (string_padded_len false 130 = 144 ∧
     string_map_index false (string_padded_len false 130) = (if false then 7 else 10) ∧
     string_map_index false (string_padded_len false 130) ≠ 5) :=
  ⟨by decide, enforcer_C1_bug false 130 (by decide) (by decide)⟩

/-- C2 counterexample: on a kernel without large-key support, a query of
length 200 ∈ (144, 256] is padded to 256 and looked up in bucket 6 — not
padded to 512 in bucket 7 as the claim states. -/
theorem enforcer_C2_cex :
    string_padded_len true 200 = 256 ∧ string_map_index true 256 = 6 ∧
    ¬(string_padded_len true 200 = 512 ∧ string_map_index true (string_padded_len true 200) = 7) := by
  decide

/-- C2 (amended): on kernels lacking large-key support, every string of
length greater than 256 is padded to 512 and assigned bucket 7, while a
query of length in (144, 256] is padded to 256 and looked up in bucket 6
(the `len <= 256` test precedes the kernel-version test in
`string_padded_len`). -/
theorem enforcer_C2_amended (len : Nat) :
    (256 < len →
      string_padded_len true len = 512 ∧
      string_map_index true (string_padded_len true len) = 7) ∧
    (144 < len → len ≤ 256 →
      string_padded_len true len = 256 ∧
      string_map_index true (string_padded_len true len) = 6) := by
  constructor
  · intro h
    have hpad : string_padded_len true len = 512 := by
      unfold string_padded_len STRING_MAPS_SIZE_5 STRING_MAPS_SIZE_6 STRING_MAPS_SIZE_7
        STRING_MAPS_SIZE_8 STRING_MAPS_SIZE_9 STRING_MAPS_SIZE_10 STRING_MAPS_KEY_INC_SIZE
      split_ifs <;> first | omega | simp_all
    rw [hpad]; exact ⟨rfl, by decide⟩
  · intro h1 h2
    have hpad : string_padded_len true len = 256 := by
      unfold string_padded_len STRING_MAPS_SIZE_5 STRING_MAPS_SIZE_6 STRING_MAPS_SIZE_7
        STRING_MAPS_SIZE_8 STRING_MAPS_SIZE_9 STRING_MAPS_SIZE_10 STRING_MAPS_KEY_INC_SIZE
      split_ifs <;> omega
    rw [hpad]; exact ⟨rfl, by decide⟩

/-- C2 witness: lengths 600 and 200. -/
theorem enforcer_C2_amended_witness :
    (256 < 600 →
      string_padded_len true 600 = 512 ∧
      string_map_index true (string_padded_len true 600) = 7) ∧
    (144 < 600 → 600 ≤ 256 →
      string_padded_len true 600 = 256 ∧
      string_map_index true (string_padded_len true 600) = 6) :=
  enforcer_C2_amended 600

/-- C9: the claimed invariant "bucket indices agree iff padded lengths
agree" fails on the code: on kernels ≥ 5.11, lengths 130 (padded 144) and
3000 (padded 4096) receive the same bucket index 10 while their padded
lengths differ; on older kernels 130 (padded 144) and 300 (padded 512)
both receive index 7.  Same root cause as C1: padded length 144 falls into
the default branch of `string_map_index`. -/
theorem enforcer_C9_bug :
    (string_padded_len false 130 = 144 ∧ string_padded_len false 3000 = 4096 ∧
     string_map_index false (string_padded_len false 130) =
       string_map_index false (string_padded_len false 3000) ∧
     string_padded_len false 130 ≠ string_padded_len false 3000) ∧
    (string_padded_len true 130 = 144 ∧ string_padded_len true 300 = 512 ∧
     string_map_index true (string_padded_len true 130) =
       string_map_index true (string_padded_len true 300) ∧
     string_padded_len true 130 ≠ string_padded_len true 300) := by
  decide

/-- C8: tracker inheritance.  From any initial tracker-map state, after any
event stream containing the mkdir of a child `c` (with nonzero ids) whose
parent `p` is tracked with value `t` at that moment, and such that the
remaining events neither release `c` nor re-create `c`, the final map still
sends `c` to `t` — the parent's tracker value at mkdir time. -/
theorem enforcer_C8_inheritance (s0 : TrackerMap) (pre post : List CgEvent)
    (c p t : Nat) (hc : c ≠ 0) (hp : p ≠ 0)
    (htracked : applyCgEvents s0 pre p = some t)
    (hpost : ∀ e ∈ post, e ≠ CgEvent.rel c ∧ ∀ q, e ≠ CgEvent.mk_dir c q) :
    applyCgEvents s0 (pre ++ CgEvent.mk_dir c p :: post) c = some t := by
  have hmk : applyCgEvents s0 (pre ++ [CgEvent.mk_dir c p]) c = some t := by
    have : applyCgEvents s0 (pre ++ [CgEvent.mk_dir c p]) =
        applyCgEvent (applyCgEvents s0 pre) (CgEvent.mk_dir c p) := by
      simp [applyCgEvents, List.foldl_append]
    rw [this]
    simp [applyCgEvent, tg_cgtracker_cgroup_mkdir, hc, hp, htracked]
  have hsplit : pre ++ CgEvent.mk_dir c p :: post = (pre ++ [CgEvent.mk_dir c p]) ++ post := by
    simp
  rw [hsplit]
  -- the value at `c` is preserved by every event of `post`
  have hpres : ∀ (evs : List CgEvent) (m : TrackerMap),
      (∀ e ∈ evs, e ≠ CgEvent.rel c ∧ ∀ q, e ≠ CgEvent.mk_dir c q) →
      m c = some t → applyCgEvents m evs c = some t := by
    intro evs
    induction evs with
    | nil => intro m _ hm; exact hm
    | cons e rest ih =>
      intro m hall hm
      have he := hall e (List.mem_cons_self e rest)
      have hrest : ∀ e' ∈ rest, e' ≠ CgEvent.rel c ∧ ∀ q, e' ≠ CgEvent.mk_dir c q :=
        fun e' h' => hall e' (List.mem_cons_of_mem e h')
      show applyCgEvents (applyCgEvent m e) rest c = some t
      apply ih _ hrest
      cases e with
      | mk_dir c2 p2 =>
        have hne : c2 ≠ c := by
          intro hcc
          exact (he.2 p2) (by rw [hcc])
        simp only [applyCgEvent, tg_cgtracker_cgroup_mkdir]
        split_ifs <;> try exact hm
        cases hmp : m p2 with
        | none => simpa [hmp] using hm
        | some tr => simp [hmp, hne, Ne.symm hne, hm]
      | rel c2 =>
        have hne : c2 ≠ c := by
          intro hcc
          exact he.1 (by rw [hcc])
        simp only [applyCgEvent, tg_cgtracker_cgroup_release]
        split_ifs <;> simp [hne, Ne.symm hne, hm]
  have : applyCgEvents s0 ((pre ++ [CgEvent.mk_dir c p]) ++ post) =
      applyCgEvents (applyCgEvents s0 (pre ++ [CgEvent.mk_dir c p])) post := by
    simp [applyCgEvents, List.foldl_append]
  rw [this]
  exact hpres post _ hpost hmk

/-- C8 witness: root cgroup 1 tracked to itself by userspace, child 2
created under it, an unrelated sibling 3 created and released afterwards. -/
theorem enforcer_C8_inheritance_witness :
    applyCgEvents (fun k => if k = 1 then some 1 else none)
      ([] ++ CgEvent.mk_dir 2 1 :: [CgEvent.mk_dir 3 1, CgEvent.rel 3]) 2 = some 1 :=
  enforcer_C8_inheritance (fun k => if k = 1 then some 1 else none) [] [CgEvent.mk_dir 3 1, CgEvent.rel 3]
    2 1 1 (by decide) (by decide) (by decide)
    (by intro e he; fin_cases he <;> exact ⟨by decide, fun q => by simp⟩)

/-- Reduction of the gate to its final stage: under the conditions that
bring `enforce_cgroup_policy` past the allowlist miss and the path copy,
the result is determined by the `policy_mode_map` lookup. -/
lemma enforce_mode_stage (e : GateEnv) (pid : Nat)
    (htid : ¬get_tracker_id_from_curr_task e.trackerMap e.cgid = 0)
    (hpol : e.policyMap (get_tracker_id_from_curr_task e.trackerMap e.cgid) = some pid)
    (hscr : e.scratchOk = true) (hfile : e.filePresent = true) (hoff : 0 < e.resolveOff)
    (hcap : ¬(e.lt511 = true ∧ STRING_MAPS_SIZE_7 < gate_path_len e.resolveOff))
    (hpad : ¬string_padded_len e.lt511 (gate_path_len e.resolveOff) = 0)
    (hsm : get_policy_string_map e.stringMapPresent pid
      (string_map_index e.lt511 (string_padded_len e.lt511 (gate_path_len e.resolveOff))) = true)
    (hmatch : e.allowMatch = false) (hcopy : e.copyOk = true) :
    (e.modeMap pid = none → enforce_cgroup_policy e = ⟨0, none⟩) ∧
    (∀ m, e.modeMap pid = some m →
      enforce_cgroup_policy e =
        if m = POLICY_MODE_MONITOR then
          ⟨0, some ⟨e.cgid, cgrp_get_tracker_id e.trackerMap e.cgid,
                    gate_path_len e.resolveOff, m,
                    19 + SAFE_PATH_LEN (gate_path_len e.resolveOff)⟩⟩
        else
          ⟨-EPERM, some ⟨e.cgid, cgrp_get_tracker_id e.trackerMap e.cgid,
                         gate_path_len e.resolveOff, m,
                         19 + SAFE_PATH_LEN (gate_path_len e.resolveOff)⟩⟩) := by
  unfold enforce_cgroup_policy
  rw [if_neg htid]
  split
  · rename_i h
    rw [hpol] at h
    exact Option.noConfusion h
  rename_i pid' hpol'
  rw [hpol] at hpol'
  injection hpol' with hh
  subst hh
  rw [if_neg (by simp [hscr]), if_neg (by simp [hfile]), if_neg (by omega), if_neg hcap,
      if_neg hpad, if_neg (by simp [hsm]), if_neg (by simp [hmatch]), if_neg (by simp [hcopy])]
  constructor
  · intro hmode
    rw [hmode]
  · intro m hmode
    rw [hmode]

/-- C5 counterexample: in `envC5` all nine conditions listed by the claim
hold — nonzero tracker id, bound policy, scratch available, resolution
succeeded, length cap passed, allowlist misses, copy succeeds, mode present
and not monitor — yet the hook returns 0, because the policy has no string
map for the computed bucket (`get_policy_string_map` returned NULL). -/
theorem enforcer_C5_cex :
    get_tracker_id_from_curr_task envC5.trackerMap envC5.cgid ≠ 0 ∧
    envC5.policyMap (get_tracker_id_from_curr_task envC5.trackerMap envC5.cgid) = some 3 ∧
    envC5.scratchOk = true ∧
    envC5.filePresent = true ∧
    0 < envC5.resolveOff ∧
    (envC5.lt511 = true → gate_path_len envC5.resolveOff ≤ STRING_MAPS_SIZE_7) ∧
    envC5.allowMatch = false ∧
    envC5.copyOk = true ∧
    envC5.modeMap 3 = some POLICY_MODE_PROTECT ∧
    POLICY_MODE_PROTECT ≠ POLICY_MODE_MONITOR ∧
    (enforce_cgroup_policy envC5).ret = 0 ∧
    (enforce_cgroup_policy envC5).ret ≠ -EPERM := by
  decide

/-- C10: once the gate reaches the mode test, denial is the default branch
over the mode byte: the hook returns 0 iff the mode equals
`POLICY_MODE_MONITOR` (1); every other present value — including
out-of-domain bytes such as 0 or 3 — yields `-EPERM`. -/
theorem enforcer_C10_default_deny (e : GateEnv) (pid m : Nat)
    (htid : ¬get_tracker_id_from_curr_task e.trackerMap e.cgid = 0)
    (hpol : e.policyMap (get_tracker_id_from_curr_task e.trackerMap e.cgid) = some pid)
    (hscr : e.scratchOk = true) (hfile : e.filePresent = true) (hoff : 0 < e.resolveOff)
    (hcap : ¬(e.lt511 = true ∧ STRING_MAPS_SIZE_7 < gate_path_len e.resolveOff))
    (hpad : ¬string_padded_len e.lt511 (gate_path_len e.resolveOff) = 0)
    (hsm : get_policy_string_map e.stringMapPresent pid
      (string_map_index e.lt511 (string_padded_len e.lt511 (gate_path_len e.resolveOff))) = true)
    (hmatch : e.allowMatch = false) (hcopy : e.copyOk = true)
    (hmode : e.modeMap pid = some m) :
    ((enforce_cgroup_policy e).ret = 0 ↔ m = POLICY_MODE_MONITOR) ∧
    (m ≠ POLICY_MODE_MONITOR → (enforce_cgroup_policy e).ret = -EPERM) := by
  have h := (enforce_mode_stage e pid htid hpol hscr hfile hoff hcap hpad hsm hmatch
    hcopy).2 m hmode
  rw [h]
  by_cases hm : m = POLICY_MODE_MONITOR
  · rw [if_pos hm]
    simp [hm]
  · rw [if_neg hm]
    simp [hm, EPERM]

/-- C10 witness: mode bytes 0 and 3 (out of domain) are denied, mode 1 is
allowed, in the concrete environment `gateEnvW`. -/
theorem enforcer_C10_default_deny_witness :
    (((enforce_cgroup_policy (gateEnvW 0)).ret = 0 ↔ (0 : Nat) = POLICY_MODE_MONITOR) ∧
      ((0 : Nat) ≠ POLICY_MODE_MONITOR → (enforce_cgroup_policy (gateEnvW 0)).ret = -EPERM)) ∧
    (((enforce_cgroup_policy (gateEnvW 3)).ret = 0 ↔ (3 : Nat) = POLICY_MODE_MONITOR) ∧
      ((3 : Nat) ≠ POLICY_MODE_MONITOR → (enforce_cgroup_policy (gateEnvW 3)).ret = -EPERM)) ∧
    (((enforce_cgroup_policy (gateEnvW 1)).ret = 0 ↔ (1 : Nat) = POLICY_MODE_MONITOR) ∧
      ((1 : Nat) ≠ POLICY_MODE_MONITOR → (enforce_cgroup_policy (gateEnvW 1)).ret = -EPERM)) :=
  ⟨enforcer_C10_default_deny (gateEnvW 0) 3 0 (by decide) (by decide) (by decide) (by decide)
      (by decide) (by decide) (by decide) (by decide) (by decide) (by decide) (by decide),
   enforcer_C10_default_deny (gateEnvW 3) 3 3 (by decide) (by decide) (by decide) (by decide)
      (by decide) (by decide) (by decide) (by decide) (by decide) (by decide) (by decide),
   enforcer_C10_default_deny (gateEnvW 1) 3 1 (by decide) (by decide) (by decide) (by decide)
      (by decide) (by decide) (by decide) (by decide) (by decide) (by decide) (by decide)⟩

/-- C3 counterexample: in `envC3` a policy (id 9) is bound and the gate
reaches the mode lookup, which is absent; the hook returns 0 but publishes
nothing on the monitoring ring buffer — it does not behave as monitor. -/
theorem enforcer_C3_cex :
    envC3.policyMap (get_tracker_id_from_curr_task envC3.trackerMap envC3.cgid) = some 9 ∧
    envC3.modeMap 9 = none ∧
    envC3.scratchOk = true ∧ envC3.filePresent = true ∧ 0 < envC3.resolveOff ∧
    envC3.allowMatch = false ∧ envC3.copyOk = true ∧
    enforce_cgroup_policy envC3 = ⟨0, none⟩ := by
  decide

/-- C3 (amended): when a policy is bound and the gate reaches the
policy-mode lookup but the mode is absent, the gate logs and returns 0
(allows) without publishing any record on the monitoring ring buffer. -/
theorem enforcer_C3_amended (e : GateEnv) (pid : Nat)
    (htid : ¬get_tracker_id_from_curr_task e.trackerMap e.cgid = 0)
    (hpol : e.policyMap (get_tracker_id_from_curr_task e.trackerMap e.cgid) = some pid)
    (hscr : e.scratchOk = true) (hfile : e.filePresent = true) (hoff : 0 < e.resolveOff)
    (hcap : ¬(e.lt511 = true ∧ STRING_MAPS_SIZE_7 < gate_path_len e.resolveOff))
    (hpad : ¬string_padded_len e.lt511 (gate_path_len e.resolveOff) = 0)
    (hsm : get_policy_string_map e.stringMapPresent pid
      (string_map_index e.lt511 (string_padded_len e.lt511 (gate_path_len e.resolveOff))) = true)
    (hmatch : e.allowMatch = false) (hcopy : e.copyOk = true)
    (hmode : e.modeMap pid = none) :
    enforce_cgroup_policy e = ⟨0, none⟩ :=
  (enforce_mode_stage e pid htid hpol hscr hfile hoff hcap hpad hsm hmatch hcopy).1 hmode

/-- C3 witness: the amended behaviour at the concrete environment
`envC3`. -/
theorem enforcer_C3_amended_witness : enforce_cgroup_policy envC3 = ⟨0, none⟩ :=
  enforcer_C3_amended envC3 9 (by decide) (by decide) (by decide) (by decide) (by decide)
    (by decide) (by decide) (by decide) (by decide) (by decide) (by decide)

/-- Any record published by `execve_send` has exactly the shape the code
assembles: the task's cgroup id, the raw tracker-map lookup, the resolved
length, mode 0, and the ring-buffer length `19 + SAFE_PATH_LEN(path_len)`. -/
lemma execve_send_shape (e : ExecveEnv) (ev : Event) (h : execve_send e = some ev) :
    ev = ⟨e.cgid, cgrp_get_tracker_id e.trackerMap e.cgid, gate_path_len e.resolveOff, 0,
          19 + SAFE_PATH_LEN (gate_path_len e.resolveOff)⟩ := by
  unfold execve_send at h
  split_ifs at h
  injection h with hh
  exact hh.symm

/-- Any record published by `enforce_cgroup_policy` has the shape the code
assembles, for some mode byte `m`. -/
lemma enforce_published_shape (e : GateEnv) (ev : Event)
    (h : (enforce_cgroup_policy e).published = some ev) :
    ∃ m, ev = ⟨e.cgid, cgrp_get_tracker_id e.trackerMap e.cgid, gate_path_len e.resolveOff, m,
               19 + SAFE_PATH_LEN (gate_path_len e.resolveOff)⟩ := by
  unfold enforce_cgroup_policy at h
  by_cases htid : get_tracker_id_from_curr_task e.trackerMap e.cgid = 0
  · rw [if_pos htid] at h
    exact Option.noConfusion h
  rw [if_neg htid] at h
  rcases hpol : e.policyMap (get_tracker_id_from_curr_task e.trackerMap e.cgid) with _ | pid <;>
    rw [hpol] at h
  · exact Option.noConfusion h
  dsimp only at h
  by_cases hscr : e.scratchOk = false
  · rw [if_pos hscr] at h
    exact Option.noConfusion h
  rw [if_neg hscr] at h
  by_cases hfile : e.filePresent = false
  · rw [if_pos hfile] at h
    exact Option.noConfusion h
  rw [if_neg hfile] at h
  by_cases hoff : e.resolveOff ≤ 0
  · rw [if_pos hoff] at h
    exact Option.noConfusion h
  rw [if_neg hoff] at h
  by_cases hcap : e.lt511 = true ∧ STRING_MAPS_SIZE_7 < gate_path_len e.resolveOff
  · rw [if_pos hcap] at h
    exact Option.noConfusion h
  rw [if_neg hcap] at h
  by_cases hpad : string_padded_len e.lt511 (gate_path_len e.resolveOff) = 0
  · rw [if_pos hpad] at h
    exact Option.noConfusion h
  rw [if_neg hpad] at h
  by_cases hsm : get_policy_string_map e.stringMapPresent pid
      (string_map_index e.lt511 (string_padded_len e.lt511 (gate_path_len e.resolveOff))) = false
  · rw [if_pos hsm] at h
    exact Option.noConfusion h
  rw [if_neg hsm] at h
  by_cases hmatch : e.allowMatch = true
  · rw [if_pos hmatch] at h
    exact Option.noConfusion h
  rw [if_neg hmatch] at h
  by_cases hcopy : e.copyOk = false
  · rw [if_pos hcopy] at h
    exact Option.noConfusion h
  rw [if_neg hcopy] at h
  rcases hmode : e.modeMap pid with _ | m <;> rw [hmode] at h
  · exact Option.noConfusion h
  dsimp only at h
  by_cases hmon : m = POLICY_MODE_MONITOR
  · rw [if_pos hmon] at h
    injection h with hh
    exact ⟨m, hh.symm⟩
  · rw [if_neg hmon] at h
    injection h with hh
    exact ⟨m, hh.symm⟩

/-- C4 counterexample: the execve record's `cg_tracker_id` is 0, not the
cgroup id itself, when the cgroup id (5) is absent from the tracker map:
`cgrp_get_tracker_id` returns `ret ? *ret : 0`. -/
theorem enforcer_C4_cex :
    (execve_send envC4).map Event.cg_tracker_id = some 0 ∧
    envC4.trackerMap envC4.cgid = none ∧
    envC4.cgid = 5 := by
  decide

/-- C4 (amended): in every published record (both ring buffers) the
`cg_tracker_id` field equals `tracker_map[cgid]` when the task's cgroup id
is present in the tracker map, and 0 — not `cgid` — otherwise. -/
theorem enforcer_C4_amended (e1 : ExecveEnv) (e2 : GateEnv) (ev1 ev2 : Event)
    (h1 : execve_send e1 = some ev1)
    (h2 : (enforce_cgroup_policy e2).published = some ev2) :
    ((e1.trackerMap e1.cgid = none → ev1.cg_tracker_id = 0) ∧
     (∀ t, e1.trackerMap e1.cgid = some t → ev1.cg_tracker_id = t)) ∧
    ((e2.trackerMap e2.cgid = none → ev2.cg_tracker_id = 0) ∧
     (∀ t, e2.trackerMap e2.cgid = some t → ev2.cg_tracker_id = t)) := by
  obtain rfl := execve_send_shape e1 ev1 h1
  obtain ⟨m, rfl⟩ := enforce_published_shape e2 ev2 h2
  refine ⟨⟨fun hn => ?_, fun t ht => ?_⟩, ⟨fun hn => ?_, fun t ht => ?_⟩⟩
  · simp [cgrp_get_tracker_id, hn]
  · simp [cgrp_get_tracker_id, ht]
  · simp [cgrp_get_tracker_id, hn]
  · simp [cgrp_get_tracker_id, ht]

/-- C4 witness: a tracked cgroup (5 ↦ 2) on the execve channel and an
untracked cgroup (7) on the monitoring channel. -/
theorem enforcer_C4_amended_witness :
    ((envW1.trackerMap envW1.cgid = none →
        (Event.mk 5 2 13 0 32).cg_tracker_id = 0) ∧
     (∀ t, envW1.trackerMap envW1.cgid = some t →
        (Event.mk 5 2 13 0 32).cg_tracker_id = t)) ∧
    (((gateEnvW 2).trackerMap (gateEnvW 2).cgid = none →
        (Event.mk 7 0 13 2 32).cg_tracker_id = 0) ∧
     (∀ t, (gateEnvW 2).trackerMap (gateEnvW 2).cgid = some t →
        (Event.mk 7 0 13 2 32).cg_tracker_id = t)) :=
  enforcer_C4_amended envW1 (gateEnvW 2) (Event.mk 5 2 13 0 32) (Event.mk 7 0 13 2 32)
    (by decide) (by decide)

/-- C6 counterexample: for a resolved path length of exactly `MAX_PATH_LEN`
(4096 ≤ PATH_MAX) the record's length field says 4096 but the length passed
to the ring buffer is `19 + (4096 & 4095) = 19`, not `19 + 4096`. -/
theorem enforcer_C6_cex :
    (execve_send envC6).map (fun ev => (ev.path_len, ev.record_len)) = some (4096, 19) ∧
    (19 : Nat) ≠ 19 + 4096 := by
  decide

/-- C6 (amended): every record published on either ring buffer whose
path-length field is strictly below `MAX_PATH_LEN` has length exactly
`19 + path_len`; at a resolved length of exactly `MAX_PATH_LEN` the
`SAFE_PATH_LEN` mask wraps the passed length to 19. -/
theorem enforcer_C6_amended (e1 : ExecveEnv) (e2 : GateEnv) (ev : Event)
    (h : execve_send e1 = some ev ∨ (enforce_cgroup_policy e2).published = some ev)
    (hlen : ev.path_len < MAX_PATH_LEN) :
    ev.record_len = 19 + ev.path_len := by
  rcases h with h | h
  · obtain rfl := execve_send_shape e1 ev h
    dsimp only at hlen ⊢
    simp only [SAFE_PATH_LEN, MAX_PATH_LEN] at hlen ⊢
    omega
  · obtain ⟨m, rfl⟩ := enforce_published_shape e2 ev h
    dsimp only at hlen ⊢
    simp only [SAFE_PATH_LEN, MAX_PATH_LEN] at hlen ⊢
    omega

/-- C6 witness: the concrete execve record of length 13 (record length
32 = 19 + 13). -/
theorem enforcer_C6_amended_witness : (Event.mk 5 2 13 0 32).record_len =
    19 + (Event.mk 5 2 13 0 32).path_len :=
  enforcer_C6_amended envW1 (gateEnvW 2) (Event.mk 5 2 13 0 32) (Or.inl (by decide)) (by decide)

/-- Writing leaves positions below the write window unchanged. -/
lemma writeBytes_lt (vs : List Nat) (buf : Buf) (p i : Nat) (h : i < p) :
    writeBytes buf p vs i = buf i := by
  induction vs generalizing buf p with
  | nil => rfl
  | cons v vs ih =>
    show writeBytes (writeByte buf p v) (p + 1) vs i = buf i
    rw [ih (writeByte buf p v) (p + 1) (by omega)]
    simp only [writeByte]
    rw [if_neg (by omega : ¬i = p)]

/-- Writing leaves positions at or above the write window unchanged. -/
lemma writeBytes_ge (vs : List Nat) (buf : Buf) (p i : Nat) (h : p + vs.length ≤ i) :
    writeBytes buf p vs i = buf i := by
  induction vs generalizing buf p with
  | nil => rfl
  | cons v vs ih =>
    show writeBytes (writeByte buf p v) (p + 1) vs i = buf i
    rw [ih (writeByte buf p v) (p + 1) (by simp at h; omega)]
    simp only [writeByte]
    rw [if_neg (by simp at h; omega : ¬i = p)]

/-- Reading back a contiguous write returns what was written. -/
lemma readSlice_writeBytes (vs : List Nat) (buf : Buf) (p : Nat) :
    readSlice (writeBytes buf p vs) p vs.length = vs := by
  induction vs generalizing buf p with
  | nil => rfl
  | cons v vs ih =>
    show readSlice (writeBytes (writeByte buf p v) (p + 1) vs) p (vs.length + 1) = v :: vs
    rw [readSlice]
    rw [writeBytes_lt vs _ (p + 1) p (by omega)]
    rw [ih (writeByte buf p v) (p + 1)]
    simp [writeByte]

/-- Two buffers agreeing on a window have equal slices over it. -/
lemma readSlice_congr (b1 b2 : Buf) (p n : Nat)
    (h : ∀ i, p ≤ i → i < p + n → b1 i = b2 i) :
    readSlice b1 p n = readSlice b2 p n := by
  induction n generalizing p with
  | zero => rfl
  | succ n ih =>
    rw [readSlice, readSlice, h p (le_refl p) (by omega),
      ih (p + 1) (fun i h1 h2 => h i (by omega) (by omega))]

/-- Slices split additively. -/
lemma readSlice_append (buf : Buf) (p m n : Nat) :
    readSlice buf p (m + n) = readSlice buf p m ++ readSlice buf (p + m) n := by
  induction m generalizing p with
  | zero => simp [readSlice]
  | succ m ih =>
    have h1 : m + 1 + n = (m + n) + 1 := by omega
    have h2 : p + 1 + m = p + (m + 1) := by omega
    rw [h1, readSlice, readSlice, ih (p + 1), h2, List.cons_append]

/-- The cursor movement of `copy_name` is unconditional. -/
lemma copy_name_off (buf : Buf) (o : Int) (name : List Nat) :
    (copy_name buf o name).2 = o - ((name.length : Int) + 1) := rfl

/-- The cursor movement of the whole walk is the total component length. -/
lemma run_components_off (cs : List (List Nat)) (buf : Buf) (o : Int) :
    (run_components (buf, o) cs).2 = o - (totalLen cs : Int) := by
  induction cs generalizing buf o with
  | nil => simp [run_components, totalLen]
  | cons c cs ih =>
    show (run_components (copy_name buf o c) cs).2 = o - (totalLen (c :: cs) : Int)
    have h := ih (copy_name buf o c).1 (copy_name buf o c).2
    rw [show ((copy_name buf o c).1, (copy_name buf o c).2) = copy_name buf o c from rfl] at h
    rw [h, copy_name_off]
    simp only [totalLen]
    push_cast
    ring

/-- Effect of one `copy_name` call when the cursor stays nonnegative and the
component respects the kernel's 255-byte name bound: bytes at and above the
old cursor are untouched, and the window `[newlen, old)` now holds
`'/' ++ name`. -/
lemma copy_name_spec (buf : Buf) (o : Int) (name : List Nat)
    (hname : name.length ≤ 255) (ho : o ≤ 2 * (MAX_PATH_LEN : Int))
    (hfit : 0 ≤ o - ((name.length : Int) + 1)) :
    (∀ i : Nat, o ≤ (i : Int) → (copy_name buf o name).1 i = buf i) ∧
    readSlice (copy_name buf o name).1 (o - ((name.length : Int) + 1)).toNat
      (name.length + 1) = 47 :: name := by
  have ho8 : o ≤ 8192 := by simp [MAX_PATH_LEN] at ho; omega
  rcases name with _ | ⟨a, l⟩
  · have hfit1 : (0 : Int) ≤ o - 1 := by simpa using hfit
    have hsp : SAFE_PATH_ACCESS (o - 1) = (o - 1).toNat := by
      unfold SAFE_PATH_ACCESS
      rw [Int.emod_eq_of_lt (by omega) (by simp [MAX_PATH_LEN]; omega)]
    constructor
    · intro i hi
      simp only [copy_name, List.take_nil, writeBytes, List.length_nil, Nat.cast_zero,
        zero_add, hsp]
      simp only [writeByte]
      rw [if_neg (by omega : ¬i = (o - 1).toNat)]
    · simp only [copy_name, List.take_nil, writeBytes, List.length_nil, Nat.cast_zero,
        zero_add, hsp]
      rw [readSlice, readSlice]
      simp [writeByte]
  · have hlen : ((a :: l).length : Int) = (l.length : Int) + 1 := by simp
    have hfit2 : (0 : Int) ≤ o - ((l.length : Int) + 2) := by
      rw [hlen] at hfit; omega
    have hsp1 : SAFE_PATH_ACCESS (o - (((a :: l).length : Int) + 1))
        = (o - ((l.length : Int) + 2)).toNat := by
      unfold SAFE_PATH_ACCESS
      rw [hlen, show o - ((l.length : Int) + 1 + 1) = o - ((l.length : Int) + 2) by ring,
        Int.emod_eq_of_lt (by omega) (by simp [MAX_PATH_LEN]; omega)]
    have hsp2 : SAFE_PATH_ACCESS (o - (((a :: l).length : Int) + 1) + 1)
        = (o - ((l.length : Int) + 2)).toNat + 1 := by
      unfold SAFE_PATH_ACCESS
      rw [hlen, show o - ((l.length : Int) + 1 + 1) + 1 = o - ((l.length : Int) + 1) by ring,
        Int.emod_eq_of_lt (by omega) (by simp [MAX_PATH_LEN]; omega)]
      omega
    have hta : (a :: l).take (SAFE_COMPONENT_ACCESS (a :: l).length) = a :: l := by
      unfold SAFE_COMPONENT_ACCESS MAX_COMPONENT_LEN
      rw [Nat.mod_eq_of_lt (by omega), List.take_length]
    constructor
    · intro i hi
      simp only [copy_name, hta, hsp1, hsp2]
      rw [writeBytes_ge _ _ _ _ (by simp; omega)]
      simp only [writeByte]
      rw [if_neg (by omega : ¬i = (o - ((l.length : Int) + 2)).toNat)]
    · simp only [copy_name, hta, hsp1, hsp2]
      rw [show o - (((a :: l).length : Int) + 1) = o - ((l.length : Int) + 2) by
        rw [hlen]; ring]
      rw [show (a :: l).length + 1 = ((a :: l).length + 1) from rfl]
      rw [readSlice]
      rw [writeBytes_lt _ _ _ _ (by omega)]
      rw [readSlice_writeBytes (a :: l) _ _]
      simp [writeByte]

/-- Length of the string the walk deposits for the components. -/
lemma flatten_components_length (cs : List (List Nat)) :
    ((cs.reverse.map (fun c => 47 :: c)).flatten).length = totalLen cs := by
  induction cs with
  | nil => simp [totalLen]
  | cons c cs ih =>
    simp only [totalLen, List.reverse_cons, List.map_append, List.flatten_append,
      List.length_append, ih]
    simp
    omega

/-- Effect of the whole walk loop when the final cursor stays nonnegative
and every component respects the kernel's 255-byte name bound: bytes at and
above the starting cursor are untouched, and the window
`[o - totalLen, o)` holds the `'/'`-joined components, root first. -/
lemma run_components_spec (cs : List (List Nat)) (buf : Buf) (o : Int)
    (hnames : ∀ c ∈ cs, c.length ≤ 255)
    (ho : o ≤ 2 * (MAX_PATH_LEN : Int))
    (hfit : 0 ≤ o - (totalLen cs : Int)) :
    (∀ i : Nat, o ≤ (i : Int) → (run_components (buf, o) cs).1 i = buf i) ∧
    readSlice (run_components (buf, o) cs).1 (o - (totalLen cs : Int)).toNat (totalLen cs) =
      ((cs.reverse.map (fun c => 47 :: c)).flatten) := by
  induction cs generalizing buf o with
  | nil =>
    refine ⟨fun i _ => rfl, ?_⟩
    simp [totalLen, readSlice]
  | cons c cs ih =>
    have hc : c.length ≤ 255 := hnames c (List.mem_cons_self c cs)
    have htl : (totalLen (c :: cs) : Int) = ((c.length : Int) + 1) + (totalLen cs : Int) := by
      simp only [totalLen]
      push_cast
      ring
    have hfitc : 0 ≤ o - ((c.length : Int) + 1) := by
      rw [htl] at hfit; omega
    obtain ⟨hcpres, hcslice⟩ := copy_name_spec buf o c hc ho hfitc
    have ho1 : (copy_name buf o c).2 = o - ((c.length : Int) + 1) := copy_name_off buf o c
    have heta : ((copy_name buf o c).1, (copy_name buf o c).2) = copy_name buf o c := rfl
    have ihh := ih (copy_name buf o c).1 (o - ((c.length : Int) + 1))
      (fun x hx => hnames x (List.mem_cons_of_mem c hx))
      (by omega)
      (by rw [htl] at hfit; omega)
    rw [← ho1, heta] at ihh
    obtain ⟨ihpres, ihslice⟩ := ihh
    have hstep : run_components (buf, o) (c :: cs) = run_components (copy_name buf o c) cs :=
      rfl
    constructor
    · intro i hi
      rw [hstep, ihpres i (by rw [ho1]; omega), hcpres i hi]
    · rw [hstep]
      have hsplit : totalLen (c :: cs) = totalLen cs + (c.length + 1) := by
        simp [totalLen]; omega
      rw [hsplit, readSlice_append]
      have hpos1 : (o - ((totalLen cs + (c.length + 1) : Nat) : Int)).toNat
          = ((copy_name buf o c).2 - (totalLen cs : Int)).toNat := by
        rw [ho1]
        push_cast
        congr 1
        ring
      have hpos2 : ((copy_name buf o c).2 - (totalLen cs : Int)).toNat + totalLen cs
          = (o - ((c.length : Int) + 1)).toNat := by
        rw [ho1, htl] at *
        omega
      rw [hpos1, hpos2, ihslice]
      have h2 : readSlice (run_components (copy_name buf o c) cs).1
          ((o - ((c.length : Int) + 1)).toNat) (c.length + 1) = 47 :: c := by
        rw [readSlice_congr _ (copy_name buf o c).1 _ _ (fun i hge hlt => by
          refine ihpres i ?_
          rw [ho1]
          omega)]
        exact hcslice
      rw [h2]
      simp [List.reverse_cons, List.flatten_append]

/-- C7 (amended): whenever the resolver reports success (`resolved`) and
its return value is nonnegative — the fit condition its callers' `off ≤ 0`
test enforces — the returned offset is below `2 * MAX_PATH_LEN`, equals
`2 * MAX_PATH_LEN` minus the pathname's length, and the scratch window
`[off, 2 * MAX_PATH_LEN)` holds exactly the resolved pathname. -/
theorem enforcer_C7_amended (inp : ResolveInput) (buf : Buf)
    (hnames : ∀ c ∈ inp.components, c.length ≤ 255)
    (hleaf : inp.leafName.length ≤ 255)
    (hres : inp.resolved = true)
    (hfit : 0 ≤ (bpf_d_path_approx inp buf).1) :
    (bpf_d_path_approx inp buf).1 < 2 * (MAX_PATH_LEN : Int) ∧
    (bpf_d_path_approx inp buf).1
      = 2 * (MAX_PATH_LEN : Int) - ((expectedPath inp).length : Int) ∧
    readSlice (bpf_d_path_approx inp buf).2 ((bpf_d_path_approx inp buf).1).toNat
      ((expectedPath inp).length) = expectedPath inp := by
  obtain ⟨cs, leaf, d, r⟩ := inp
  dsimp only at hnames hleaf hres hfit ⊢
  subst hres
  have hM : (MAX_PATH_LEN : Int) = 4096 := by simp [MAX_PATH_LEN]
  cases d with
  | false =>
    cases cs with
    | nil =>
      -- pathless-file fallback: the leaf name alone is copied
      have hred : bpf_d_path_approx ⟨[], leaf, false, true⟩ buf
          = ((copy_name buf (2 * (MAX_PATH_LEN : Int)) leaf).2,
             (copy_name buf (2 * (MAX_PATH_LEN : Int)) leaf).1) := by
        simp [bpf_d_path_approx, run_components]
      rw [hred] at hfit ⊢
      dsimp only at hfit ⊢
      rw [copy_name_off] at hfit ⊢
      obtain ⟨-, hslice⟩ := copy_name_spec buf (2 * (MAX_PATH_LEN : Int)) leaf hleaf
        (le_refl _) hfit
      have hexp : expectedPath ⟨[], leaf, false, true⟩ = 47 :: leaf := by
        simp [expectedPath]
      rw [hexp]
      refine ⟨by omega, ?_, ?_⟩
      · simp only [List.length_cons]
        push_cast
        ring
      · simpa using hslice
    | cons c cs' =>
      -- ordinary walk, no deleted suffix
      have hoff : (run_components (buf, 2 * (MAX_PATH_LEN : Int)) (c :: cs')).2
          = 2 * (MAX_PATH_LEN : Int) - (totalLen (c :: cs') : Int) :=
        run_components_off (c :: cs') buf _
      have htlpos : 1 ≤ totalLen (c :: cs') := by simp [totalLen]; omega
      have hne : ¬(run_components (buf, 2 * (MAX_PATH_LEN : Int)) (c :: cs')).2
          = 2 * (MAX_PATH_LEN : Int) := by
        rw [hoff]
        have : (0 : Int) ≤ (totalLen (c :: cs') : Int) := by positivity
        omega
      have hred : bpf_d_path_approx ⟨c :: cs', leaf, false, true⟩ buf
          = ((run_components (buf, 2 * (MAX_PATH_LEN : Int)) (c :: cs')).2,
             (run_components (buf, 2 * (MAX_PATH_LEN : Int)) (c :: cs')).1) := by
        simp only [bpf_d_path_approx]
        simp [hne]
      rw [hred] at hfit ⊢
      dsimp only at hfit ⊢
      rw [hoff] at hfit ⊢
      obtain ⟨-, hslice⟩ := run_components_spec (c :: cs') buf (2 * (MAX_PATH_LEN : Int))
        hnames (le_refl _) hfit
      have hexp : expectedPath ⟨c :: cs', leaf, false, true⟩
          = ((c :: cs').reverse.map (fun x => 47 :: x)).flatten := by
        simp [expectedPath]
      rw [hexp]
      have hlen : (((c :: cs').reverse.map (fun x => 47 :: x)).flatten).length
          = totalLen (c :: cs') := flatten_components_length (c :: cs')
      rw [hlen]
      refine ⟨by omega, by omega, hslice⟩
  | true =>
    -- the " (deleted)" suffix is written first, then the walk runs
    have hsp : SAFE_PATH_ACCESS (2 * (MAX_PATH_LEN : Int) - 10) = 8182 := by
      unfold SAFE_PATH_ACCESS
      rw [hM]
      decide
    set bufD := writeBytes buf 8182 DELETED_STRING with hbufD
    have hoff : (run_components (bufD, 2 * (MAX_PATH_LEN : Int) - 10) cs).2
        = 2 * (MAX_PATH_LEN : Int) - 10 - (totalLen cs : Int) :=
      run_components_off cs bufD _
    have hne : ¬(run_components (bufD, 2 * (MAX_PATH_LEN : Int) - 10) cs).2
        = 2 * (MAX_PATH_LEN : Int) := by
      rw [hoff]
      have : (0 : Int) ≤ (totalLen cs : Int) := by positivity
      omega
    have hred : bpf_d_path_approx ⟨cs, leaf, true, true⟩ buf
        = ((run_components (bufD, 2 * (MAX_PATH_LEN : Int) - 10) cs).2,
           (run_components (bufD, 2 * (MAX_PATH_LEN : Int) - 10) cs).1) := by
      simp only [bpf_d_path_approx]
      rw [hbufD]
      simp [hsp, hne]
    rw [hred] at hfit ⊢
    dsimp only at hfit ⊢
    rw [hoff] at hfit ⊢
    obtain ⟨hpres, hslice⟩ := run_components_spec cs bufD (2 * (MAX_PATH_LEN : Int) - 10)
      hnames (by omega) (by omega)
    have hexp : expectedPath ⟨cs, leaf, true, true⟩
        = (cs.reverse.map (fun x => 47 :: x)).flatten ++ DELETED_STRING := by
      simp [expectedPath]
    rw [hexp]
    have hlen : ((cs.reverse.map (fun x => 47 :: x)).flatten ++ DELETED_STRING).length
        = totalLen cs + 10 := by
      rw [List.length_append, flatten_components_length]
      rfl
    rw [hlen]
    refine ⟨by omega, by omega, ?_⟩
    rw [readSlice_append]
    have hpos : (2 * (MAX_PATH_LEN : Int) - 10 - (totalLen cs : Int)).toNat + totalLen cs
        = 8182 := by
      rw [hM] at hfit ⊢
      omega
    rw [hpos]
    have hdel10 : readSlice (run_components (bufD, 2 * (MAX_PATH_LEN : Int) - 10) cs).1
        8182 10 = DELETED_STRING := by
      rw [readSlice_congr _ bufD _ _ (fun i hge hlt => hpres i (by rw [hM]; omega))]
      rw [hbufD]
      have h10 : DELETED_STRING.length = 10 := rfl
      rw [← h10, readSlice_writeBytes]
    rw [hdel10]
    rw [hslice]

set_option maxRecDepth 40000 in
/-- C7 counterexample: a resolvable walk over 36 components of 255 bytes
each (36 × 256 = 9216 cursor bytes) reports success (`resolved`) yet
returns the negative offset `8192 − 9216 = −1024`, violating the claimed
`0 ≤ off`; the callers' `off ≤ 0` test is what screens this out. -/
theorem enforcer_C7_cex :
    inpBad.resolved = true ∧
    (∀ c ∈ inpBad.components, c.length ≤ 255) ∧
    (bpf_d_path_approx inpBad (fun _ => 0)).1 = -1024 := by
  refine ⟨rfl, by decide, ?_⟩
  have hoff := run_components_off inpBad.components (fun _ => 0) (2 * (MAX_PATH_LEN : Int))
  have htl : totalLen inpBad.components = 9216 := by decide
  have hne : ¬(run_components ((fun _ => 0), 2 * (MAX_PATH_LEN : Int)) inpBad.components).2
      = 2 * (MAX_PATH_LEN : Int) := by
    rw [hoff, htl]
    simp [MAX_PATH_LEN]
  show (bpf_d_path_approx ⟨inpBad.components, [], false, true⟩ (fun _ => 0)).1 = -1024
  simp only [bpf_d_path_approx]
  simp only [Bool.false_eq_true, if_false, if_true]
  rw [if_neg hne]
  try dsimp only
  rw [hoff, htl]
  simp [MAX_PATH_LEN]

/-- C7 witness: the one-component walk `/cat` resolves to offset 8188 with
the pathname in the window `[8188, 8192)`. -/
theorem enforcer_C7_amended_witness :
    ((∀ c ∈ inpGood.components, c.length ≤ 255) ∧ inpGood.leafName.length ≤ 255 ∧
      inpGood.resolved = true ∧ 0 ≤ (bpf_d_path_approx inpGood (fun _ => 0)).1) ∧
    ((bpf_d_path_approx inpGood (fun _ => 0)).1 < 2 * (MAX_PATH_LEN : Int) ∧
     (bpf_d_path_approx inpGood (fun _ => 0)).1
       = 2 * (MAX_PATH_LEN : Int) - ((expectedPath inpGood).length : Int) ∧
     readSlice (bpf_d_path_approx inpGood (fun _ => 0)).2
       ((bpf_d_path_approx inpGood (fun _ => 0)).1).toNat
       ((expectedPath inpGood).length) = expectedPath inpGood) :=
  ⟨⟨by decide, by decide, rfl, by decide⟩,
   enforcer_C7_amended inpGood (fun _ => 0) (by decide) (by decide) rfl (by decide)⟩
